import Mathlib

/-!
Shallow embedding of the rui.h immediate-mode UI state engine.

Conventions of the embedding:
* C `float` arithmetic is modelled with exact rationals.  All the scroll,
  layout, alpha and fade computations of the source are pure +, *, /, min,
  max and comparisons, so the rational model follows the source statement
  by statement; division by zero yields 0 in this model.
* The Renderer and InputSource collaborators are external: drawing calls
  are dropped, sampled input is passed explicitly as an Input value, and
  measured text extents are passed as parameters where the source calls
  MeasureTextEx.
* Each definition is named after the C function or global it embeds.
-/

/-- Models raymath Clamp: raise to the lower bound, then cut at the upper. -/
def raymathClamp (value lo hi : ℚ) : ℚ :=
  let r := if value < lo then lo else value
  if r > hi then hi else r

/-- rui.h rui_clamp01 (lines 305-309). -/
def rui_clamp01 (value : ℚ) : ℚ :=
  if value < 0 then 0 else if value > 1 then 1 else value

/-- Axis-aligned rectangle, the raylib Rectangle record. -/
structure Rect where
  x : ℚ
  y : ℚ
  w : ℚ
  h : ℚ
deriving DecidableEq

/-- Models raylib CheckCollisionPointRec on the sampled mouse position. -/
def pointInRec (px py : ℚ) (r : Rect) : Prop :=
  r.x ≤ px ∧ px ≤ r.x + r.w ∧ r.y ≤ py ∧ py ≤ r.y + r.h

instance (px py : ℚ) (r : Rect) : Decidable (pointInRec px py r) := by
  unfold pointInRec; infer_instance

/-- The per-frame sampled input consumed by the engine: cached mouse state
(rui_mouse, rui_mousePressed), the live wheel and button queries, and the
frame delta time. -/
structure Input where
  mouseX : ℚ
  mouseY : ℚ
  mousePressed : Bool
  mouseDown : Bool
  wheel : ℚ
deriving DecidableEq

/-! ## Alpha Compositor (rui.h lines 289-336) -/

/-- The three alpha-stack globals: rui_alphaStack (a fixed array of 8
floats), rui_alphaTop and rui_alphaCurrent. -/
structure AlphaState where
  stack : List ℚ
  top : ℕ
  current : ℚ
deriving DecidableEq

/-- Capacity of rui_alphaStack: sizeof(rui_alphaStack)/sizeof(rui_alphaStack(0)). -/
def ruiAlphaCap : ℕ := 8

/-- Initial values of the alpha globals: stack = set 1.0 then zeros, top = 0,
current = 1.0. -/
def alphaStackInit : AlphaState :=
  { stack := [1, 0, 0, 0, 0, 0, 0, 0], top := 0, current := 1 }

/-- rui_push_alpha (lines 311-319): clamp the factor, multiply it into the
current alpha, append the combined value only while top < capacity - 1, and
always store the combined value as current. -/
def rui_push_alpha (alpha : ℚ) (s : AlphaState) : AlphaState :=
  let a := rui_clamp01 alpha
  let combined := s.current * a
  if s.top < ruiAlphaCap - 1 then
    { stack := s.stack.set (s.top + 1) combined
      top := s.top + 1
      current := combined }
  else
    { s with current := combined }

/-- rui_pop_alpha (lines 321-328): drop the top entry and revert to the one
below, or reset to the base entry when already at the base. -/
def rui_pop_alpha (s : AlphaState) : AlphaState :=
  if 0 < s.top then
    { s with top := s.top - 1, current := s.stack.getD (s.top - 1) 0 }
  else
    { s with current := s.stack.getD 0 0 }

/-- rui_apply_alpha (lines 330-336) restricted to the opacity channel: scale
the 0-255 channel by the current alpha, clamp, and truncate to an unsigned
char (the value is nonnegative after the clamp, so the C cast is a floor). -/
def rui_apply_alpha (s : AlphaState) (channelA : ℤ) : ℤ :=
  let a : ℚ := (channelA : ℚ) * s.current
  let a := if a < 0 then 0 else a
  let a := if a > 255 then 255 else a
  Int.floor a

/-! ## Text Input Editor (rui.h lines 24-31, 582-711) -/

/-- rui_text_input: the caller-owned buffer is modelled as a total map from
index to byte value, so every access the C code makes is meaningful here. -/
structure TextInput where
  buffer : ℤ → ℤ
  capacity : ℤ
  length : ℤ
  cursor : ℤ
  active : Bool
  blinkTimer : ℚ

/-- The ascending copy loop of backspace/delete: for count iterations starting
at index start, buffer(i) := buffer(i+1). -/
def bufShiftLeft (buf : ℤ → ℤ) (start : ℤ) : ℕ → (ℤ → ℤ)
  | 0 => buf
  | n + 1 => bufShiftLeft (Function.update buf start (buf (start + 1))) (start + 1) n

/-- The descending copy loop of insert: for count iterations starting at index
top and moving down, buffer(i+1) := buffer(i). -/
def bufShiftRight (buf : ℤ → ℤ) (top : ℤ) : ℕ → (ℤ → ℤ)
  | 0 => buf
  | n + 1 => bufShiftRight (Function.update buf (top + 1) (buf top)) (top - 1) n

/-- rui_text_input_set_cursor (lines 599-604). -/
def rui_text_input_set_cursor (t : TextInput) (position : ℤ) : TextInput :=
  let p := if position < 0 then 0 else position
  let p := if p > t.length then t.length else p
  { t with cursor := p }

/-- rui_text_input_insert_char (lines 606-619). -/
def rui_text_input_insert_char (t : TextInput) (character : ℤ) : TextInput :=
  if character = 0 ∨ character = 127 then t
  else if character < 32 then t
  else if t.length + 1 ≥ t.capacity then t
  else
    let buf := bufShiftRight t.buffer t.length (t.length - t.cursor + 1).toNat
    let buf := Function.update buf t.cursor character
    let t1 := { t with buffer := buf, length := t.length + 1 }
    rui_text_input_set_cursor t1 (t.cursor + 1)

/-- rui_text_input_backspace (lines 621-628).  The copy loop runs i from
cursor-1 up to and including length, reading buffer(i+1) each time. -/
def rui_text_input_backspace (t : TextInput) : TextInput :=
  if t.cursor ≤ 0 then t
  else
    let buf := bufShiftLeft t.buffer (t.cursor - 1) (t.length - t.cursor + 2).toNat
    let t1 := { t with buffer := buf, length := t.length - 1 }
    rui_text_input_set_cursor t1 (t.cursor - 1)

/-- rui_text_input_delete (lines 630-636). -/
def rui_text_input_delete (t : TextInput) : TextInput :=
  if t.cursor ≥ t.length then t
  else
    let buf := bufShiftLeft t.buffer t.cursor (t.length - t.cursor + 1).toNat
    { t with buffer := buf, length := t.length - 1 }

/-- Number of iterations of the backspace copy loop (i = cursor-1 .. length). -/
def backspaceShiftCount (t : TextInput) : ℕ := (t.length - t.cursor + 2).toNat

/-- The buffer indices READ by rui_text_input_backspace: the loop body reads
buffer(i+1) for i = cursor-1 .. length (empty when the cursor guard fires). -/
def backspaceReadIdx (t : TextInput) : List ℤ :=
  if t.cursor ≤ 0 then []
  else (List.range (backspaceShiftCount t)).map (fun k => (t.cursor - 1) + k + 1)

/-- The buffer indices WRITTEN by rui_text_input_backspace. -/
def backspaceWriteIdx (t : TextInput) : List ℤ :=
  if t.cursor ≤ 0 then []
  else (List.range (backspaceShiftCount t)).map (fun k => (t.cursor - 1) + k)

/-- The navigation/edit operations dispatched by the key loop of
rui_text_input_box (lines 674-697). -/
inductive TIOp where
  | leftKey
  | rightKey
  | homeKey
  | endKey
  | insertChar (c : ℤ)
  | backKey
  | deleteKey

/-- Dispatch of one operation, exactly as the key/char loops of
rui_text_input_box do it. -/
def applyTIOp : TIOp → TextInput → TextInput
  | .leftKey, t => rui_text_input_set_cursor t (t.cursor - 1)
  | .rightKey, t => rui_text_input_set_cursor t (t.cursor + 1)
  | .homeKey, t => rui_text_input_set_cursor t 0
  | .endKey, t => rui_text_input_set_cursor t t.length
  | .insertChar c, t => rui_text_input_insert_char t c
  | .backKey, t => rui_text_input_backspace t
  | .deleteKey, t => rui_text_input_delete t

/-- A finite sequence of editing operations. -/
def runTIOps : List TIOp → TextInput → TextInput
  | [], t => t
  | op :: rest, t => runTIOps rest (applyTIOp op t)

/-- The cursor/length/capacity invariant of the text editor. -/
def TIInv (t : TextInput) : Prop :=
  0 ≤ t.cursor ∧ t.cursor ≤ t.length ∧ t.length < t.capacity

instance (t : TextInput) : Decidable (TIInv t) := by
  unfold TIInv; infer_instance

/-- A concrete text-input state as produced by rui_text_input_init from a
caller buffer already holding capacity - 1 characters (lines 582-597): with
capacity 2 and initial text "A", length = 1 and cursor = 1. -/
def tInitFull : TextInput :=
  { buffer := fun _ => 65, capacity := 2, length := 1, cursor := 1
    active := false, blinkTimer := 0 }

/-! ## Exclusive focus (rui.h lines 286-287, 638-670, 692-694) -/

/-- The focus-relevant state: the active flag of every text-input instance
(identified by an id standing for its C address), the global
rui_activeTextInput pointer and rui_keyboardCaptured. -/
structure FocusWorld where
  flags : ℕ → Bool
  activeId : Option ℕ
  keyboardCaptured : Bool

/-- rui_text_input_set_active (lines 638-645): deactivate the previous input
when it differs from the new one, store the new pointer, update the capture
flag, and mark the new input active. -/
def rui_text_input_set_active (target : Option ℕ) (w : FocusWorld) : FocusWorld :=
  let flags1 :=
    match w.activeId with
    | some j => if target ≠ some j then Function.update w.flags j false else w.flags
    | none => w.flags
  let flags2 :=
    match target with
    | some i => Function.update flags1 i true
    | none => flags1
  { flags := flags2, activeId := target, keyboardCaptured := target.isSome }

/-- The focus transitions of rui_text_input_box: a click inside instance i
(line 653-654), a click outside it while it is the active one (lines 665-670),
and Escape/Enter while it is the active one (lines 692-694; the key loop only
runs when rui_activeTextInput == input). -/
inductive FocusEvent where
  | clickInside (i : ℕ)
  | clickOutside (i : ℕ)
  | escapeOrEnter (i : ℕ)

/-- One focus transition. -/
def applyFocusEvent : FocusEvent → FocusWorld → FocusWorld
  | .clickInside i, w => rui_text_input_set_active (some i) w
  | .clickOutside i, w =>
      if w.activeId = some i then
        rui_text_input_set_active none { w with flags := Function.update w.flags i false }
      else w
  | .escapeOrEnter i, w =>
      if w.activeId = some i then
        rui_text_input_set_active none { w with flags := Function.update w.flags i false }
      else w

/-- A finite sequence of focus transitions. -/
def runFocusEvents : List FocusEvent → FocusWorld → FocusWorld
  | [], w => w
  | e :: rest, w => runFocusEvents rest (applyFocusEvent e w)

/-- Start of process: every instance is initialized unfocused
(rui_text_input_init sets active = false) and rui_activeTextInput is NULL. -/
def focusWorldInit : FocusWorld :=
  { flags := fun _ => false, activeId := none, keyboardCaptured := false }

/-- Focus invariant: any instance whose flag is set is the recorded active
instance (hence at most one flag is ever set). -/
def focusInv (w : FocusWorld) : Prop :=
  ∀ i, w.flags i = true → w.activeId = some i

/-! ## Fade Overlay Animator (rui.h lines 278-285, 400-413, 749-776) -/

/-- The fade globals: rui_fadeActive, rui_fadeAlpha, rui_fadeStartAlpha,
rui_fadeTargetAlpha, rui_fadeDuration, rui_fadeElapsed. -/
structure FadeState where
  fadeActive : Bool
  fadeAlpha : ℚ
  fadeStartAlpha : ℚ
  fadeTargetAlpha : ℚ
  fadeDuration : ℚ
  fadeElapsed : ℚ
deriving DecidableEq

/-- Initial values of the fade globals. -/
def fadeStateInit : FadeState :=
  { fadeActive := false, fadeAlpha := 0, fadeStartAlpha := 0
    fadeTargetAlpha := 0, fadeDuration := 0, fadeElapsed := 0 }

/-- rui_fade_start (lines 749-760). -/
def rui_fade_start (targetAlpha duration : ℚ) (f : FadeState) : FadeState :=
  let f1 := { f with fadeStartAlpha := f.fadeAlpha
                     fadeTargetAlpha := targetAlpha
                     fadeDuration := duration
                     fadeElapsed := 0 }
  if duration ≤ 0 then
    { f1 with fadeAlpha := f1.fadeTargetAlpha, fadeActive := false }
  else
    { f1 with fadeActive := true }

/-- The fade-advance block of rui_begin_frame (lines 400-413), with the frame
delta passed explicitly. -/
def rui_advance_fade (dt : ℚ) (f : FadeState) : FadeState :=
  if f.fadeActive then
    let e := f.fadeElapsed + dt
    if f.fadeDuration ≤ 0 then
      { f with fadeElapsed := e, fadeAlpha := f.fadeTargetAlpha, fadeActive := false }
    else
      let t := e / f.fadeDuration
      let tc := if t ≥ 1 then (1 : ℚ) else t
      let act := if t ≥ 1 then false else f.fadeActive
      { f with fadeElapsed := e
               fadeAlpha := f.fadeStartAlpha + (f.fadeTargetAlpha - f.fadeStartAlpha) * tc
               fadeActive := act }
  else f

/-- rui_fade_out (lines 766-768). -/
def rui_fade_out (duration : ℚ) (f : FadeState) : FadeState :=
  rui_fade_start 255 duration f

/-- rui_fade_in (lines 770-772). -/
def rui_fade_in (duration : ℚ) (f : FadeState) : FadeState :=
  rui_fade_start 0 duration f

/-! ## Panel Layout Engine and Scroll Controller (rui.h lines 241-292, 816-1187) -/

/-- rui_align (lines 33-37). -/
inductive RuiAlign where
  | leftAlign
  | centerAlign
  | rightAlign
deriving DecidableEq

/-- Horizontal padding inside panels (rui_panelPadding, line 247). -/
def rui_panelPadding : ℚ := 8

/-- Vertical spacing between widgets (rui_panelSpacing, line 248). -/
def rui_panelSpacing : ℚ := 6

/-- The panel/scroll/theme globals of rui.h that carry state across calls.
Color fields of the style snapshot only feed the Renderer and are dropped;
the snapshot's contentAlign, which decides widget placement, is kept.  The
field lastScrollableViewHeight is a history variable not present in the C
code: it records bounds.height - headerHeight of the most recent scrollable
session, the quantity the specification's scroll bound refers to; no
definition reads it. -/
structure Engine where
  currentPanel : Rect
  panelCursorY : ℚ
  panelActive : Bool
  panelHasTitle : Bool
  panelCloseRequested : Bool
  panelClosePressed : Bool
  panelHeaderHeight : ℚ
  panelScrollable : Bool
  scrollOffset : ℚ
  contentHeight : ℚ
  prevContentHeight : ℚ
  hasPrevContent : Bool
  draggingScrollbar : Bool
  dragOffsetY : ℚ
  contentAlign : RuiAlign
  panelInnerLeft : ℚ
  panelInnerRight : ℚ
  panelContentWidth : ℚ
  scrollOffsetBeforePanel : ℚ
  alpha : AlphaState
  panelAlphaApplied : Bool
  themeInitialized : Bool
  textFontSize : ℚ
  titleFontSize : ℚ
  sliderDragging : Bool
  activeSlider : Rect
  lastScrollableViewHeight : ℚ
deriving DecidableEq

/-- Initial values of the globals (lines 241-292): theme fonts start zeroed
(rui_themeCurrent.textFont = 0) until the first lazy rui_theme_reset. -/
def engineInit : Engine :=
  { currentPanel := ⟨0, 0, 0, 0⟩
    panelCursorY := 0
    panelActive := false
    panelHasTitle := false
    panelCloseRequested := false
    panelClosePressed := false
    panelHeaderHeight := 24
    panelScrollable := false
    scrollOffset := 0
    contentHeight := 0
    prevContentHeight := 0
    hasPrevContent := false
    draggingScrollbar := false
    dragOffsetY := 0
    contentAlign := .leftAlign
    panelInnerLeft := 0
    panelInnerRight := 0
    panelContentWidth := 0
    scrollOffsetBeforePanel := 0
    alpha := alphaStackInit
    panelAlphaApplied := false
    themeInitialized := false
    textFontSize := 0
    titleFontSize := 0
    sliderDragging := false
    activeSlider := ⟨0, 0, 0, 0⟩
    lastScrollableViewHeight := 0 }

/-- rui_calculate_header_height (lines 296-303), parameterized by the current
title-font size. -/
def rui_calculate_header_height (titleFontSize : ℚ) (hasTitle : Bool) : ℚ :=
  let padding : ℚ := 6
  let height := if hasTitle then titleFontSize + padding * 2
                else rui_panelPadding + padding * 3 / 2
  if height < 18 then 18 else height

/-- The state effect of rui_theme_reset (lines 376-382) composed with
rui_theme_set of the default theme: font sizes become 20 (text) and 18
(title), the base alpha entry is rewritten to 1, and the stack resets. -/
def rui_theme_reset (s : Engine) : Engine :=
  { s with textFontSize := 20
           titleFontSize := 18
           alpha := { stack := s.alpha.stack.set 0 1, top := 0, current := 1 }
           themeInitialized := true }

/-- rui_panel_begin_internal (lines 817-885) minus the Renderer calls.  The
title argument becomes hasTitle (title != NULL); the style snapshot is its
contentAlign. -/
def rui_panel_begin_internal (inp : Input) (bounds : Rect) (hasTitle scrollable : Bool)
    (align : RuiAlign) (alphaArg : ℚ) (s0 : Engine) : Engine :=
  let s := if s0.themeInitialized then s0 else rui_theme_reset s0
  let clampedAlpha := rui_clamp01 alphaArg
  let alphaNext := if clampedAlpha = 1 then (s.alpha, false)
                   else (rui_push_alpha clampedAlpha s.alpha, true)
  let headerH := rui_calculate_header_height s.titleFontSize hasTitle
  let scrollbarWidth : ℚ := if scrollable then 12 else 0
  let innerLeft := bounds.x + rui_panelPadding
  let innerRight0 := bounds.x + bounds.w - rui_panelPadding - scrollbarWidth
  let innerRight := if innerRight0 < innerLeft then innerLeft else innerRight0
  let viewHeight := bounds.h - headerH
  let offsetNext :=
    if scrollable then
      let o := if pointInRec inp.mouseX inp.mouseY bounds
               then s.scrollOffset + inp.wheel * 20 else s.scrollOffset
      let maxOffset := s.prevContentHeight - viewHeight
      if maxOffset > 0 then raymathClamp o 0 maxOffset
      else if s.hasPrevContent then 0 else o
    else 0
  let closePressedNext :=
    if s.panelCloseRequested ∧ hasTitle then
      let buttonSize : ℚ := 18
      let closeBounds : Rect :=
        ⟨bounds.x + bounds.w - buttonSize - 6, bounds.y + (headerH - buttonSize) / 2,
         buttonSize, buttonSize⟩
      decide (pointInRec inp.mouseX inp.mouseY closeBounds) && inp.mousePressed
    else false
  { s with currentPanel := bounds
           panelHasTitle := hasTitle
           panelHeaderHeight := headerH
           panelCursorY := bounds.y + headerH + rui_panelPadding
           contentHeight := 0
           panelActive := true
           panelScrollable := scrollable
           contentAlign := align
           scrollOffsetBeforePanel := s.scrollOffset
           panelInnerLeft := innerLeft
           panelInnerRight := innerRight
           panelContentWidth := innerRight - innerLeft
           scrollOffset := offsetNext
           alpha := alphaNext.1
           panelAlphaApplied := alphaNext.2
           panelClosePressed := closePressedNext
           panelCloseRequested := false
           lastScrollableViewHeight :=
             if scrollable then viewHeight else s.lastScrollableViewHeight }

/-- rui_panel_end (lines 1117-1187) minus the Renderer calls. -/
def rui_panel_end (inp : Input) (s : Engine) : Engine :=
  if s.panelActive then
    let viewHeight := s.currentPanel.h - s.panelHeaderHeight
    let s1 :=
      if s.panelScrollable ∧ s.contentHeight > viewHeight then
        let maxOffset0 := s.contentHeight - viewHeight
        let maxOffset := if maxOffset0 < 0 then 0 else maxOffset0
        let ratio := viewHeight / s.contentHeight
        let barHeight := viewHeight * ratio
        let trackY := s.currentPanel.y + s.panelHeaderHeight
        let travel := viewHeight - barHeight
        let barY := trackY +
          (if maxOffset > 0 then (s.scrollOffset / maxOffset) * travel else 0)
        let scrollBar : Rect :=
          ⟨s.currentPanel.x + s.currentPanel.w - 10, barY, 8, barHeight⟩
        let hovered := pointInRec inp.mouseX inp.mouseY scrollBar
        let dragStart := inp.mousePressed = true ∧ hovered
        let drag1 := if dragStart then true else s.draggingScrollbar
        let dragOff1 := if dragStart then inp.mouseY - barY else s.dragOffsetY
        let offset1 :=
          if drag1 = true then
            if inp.mouseDown then
              let newBarY := raymathClamp (inp.mouseY - dragOff1) trackY (trackY + travel)
              if travel > 0 then ((newBarY - trackY) / travel) * maxOffset
              else s.scrollOffset
            else s.scrollOffset
          else s.scrollOffset
        let drag2 := if drag1 = true then (if inp.mouseDown then drag1 else false) else drag1
        let offset2 := raymathClamp offset1 0 maxOffset
        { s with scrollOffset := offset2, draggingScrollbar := drag2, dragOffsetY := dragOff1 }
      else
        if s.panelScrollable then { s with scrollOffset := 0 }
        else { s with scrollOffset := s.scrollOffsetBeforePanel }
    let s2 :=
      if s.panelScrollable then
        { s1 with prevContentHeight := s1.contentHeight, hasPrevContent := true }
      else s1
    let s3 := { s2 with panelActive := false, panelContentWidth := 0 }
    if s.panelAlphaApplied then
      { s3 with alpha := rui_pop_alpha s3.alpha, panelAlphaApplied := false }
    else s3
  else s

/-- rui_button (lines 427-445) restricted to its returned value: pressed =
hovered and mouse pressed this frame. -/
def rui_button (inp : Input) (bounds : Rect) : Bool :=
  decide (pointInRec inp.mouseX inp.mouseY bounds) && inp.mousePressed

/-- rui_toggle (lines 538-564) restricted to its returned value. -/
def rui_toggle (inp : Input) (bounds : Rect) (value : Bool) : Bool :=
  let hovered := decide (pointInRec inp.mouseX inp.mouseY bounds)
  let toggled := hovered && inp.mousePressed
  if toggled then !value else value

/-- rui_slider (lines 487-536): returns the clamped/updated value and updates
the drag statics (modelled as the Engine fields sliderDragging and
activeSlider). -/
def rui_slider (inp : Input) (bounds0 : Rect) (value minValue maxValue : ℚ)
    (s : Engine) : ℚ × Engine :=
  let minV := if maxValue < minValue then maxValue else minValue
  let maxV := if maxValue < minValue then minValue else maxValue
  let bounds := if bounds0.w < 12 then { bounds0 with w := 12 } else bounds0
  let trackHeight : ℚ := 6
  let track : Rect := ⟨bounds.x, bounds.y + (bounds.h - trackHeight) / 2,
                       bounds.w, trackHeight⟩
  let knobWidth : ℚ := 12
  let travel := bounds.w - knobWidth
  let clampedValue := raymathClamp value minV maxV
  let t := if maxV - minV > 0 then (clampedValue - minV) / (maxV - minV) else 0
  let knob : Rect := ⟨bounds.x + t * travel, bounds.y + (bounds.h - knobWidth) / 2,
                      knobWidth, knobWidth⟩
  let hovered := pointInRec inp.mouseX inp.mouseY knob ∨
                 pointInRec inp.mouseX inp.mouseY track
  let dragging :=
    if inp.mouseDown then
      (if s.sliderDragging = false ∧ hovered then true else s.sliderDragging)
    else false
  let activeSl :=
    if inp.mouseDown then
      (if s.sliderDragging = false ∧ hovered then bounds else s.activeSlider)
    else s.activeSlider
  let result :=
    if dragging = true ∧ activeSl.x = bounds.x ∧ activeSl.y = bounds.y ∧
       activeSl.w = bounds.w then
      let mouseT0 := (inp.mouseX - bounds.x - knobWidth / 2) / travel
      let mouseT1 := if travel ≤ 0 then 0 else mouseT0
      let mouseT2 := if mouseT1 < 0 then 0 else mouseT1
      let mouseT := if mouseT2 > 1 then 1 else mouseT2
      minV + mouseT * (maxV - minV)
    else clampedValue
  (result, { s with sliderDragging := dragging, activeSlider := activeSl })

/-- The horizontal placement block repeated in every rui_panel_* widget
(e.g. lines 906-917): effective target width inside the interior. -/
def ruiContentTargetWidth (s : Engine) : ℚ :=
  let innerWidth := s.panelInnerRight - s.panelInnerLeft
  if s.panelContentWidth ≤ 0 ∨ s.panelContentWidth > innerWidth then innerWidth
  else s.panelContentWidth

/-- The horizontal placement block repeated in every rui_panel_* widget:
x position from the session alignment. -/
def ruiContentX (s : Engine) (targetWidth : ℚ) : ℚ :=
  let innerWidth := s.panelInnerRight - s.panelInnerLeft
  if targetWidth < innerWidth then
    match s.contentAlign with
    | .centerAlign => s.panelInnerLeft + (innerWidth - targetWidth) / 2
    | .rightAlign => s.panelInnerRight - targetWidth
    | .leftAlign => s.panelInnerLeft
  else s.panelInnerLeft

/-- The layout-cursor advance shared by the panel widgets: cursor moves by the
widget height plus spacing and the accumulated content height is refreshed
against the header baseline (e.g. lines 926-927). -/
def ruiAdvanceCursor (s : Engine) (advance : ℚ) : Engine :=
  let cursorNext := s.panelCursorY + advance
  { s with panelCursorY := cursorNext
           contentHeight := cursorNext - (s.currentPanel.y + s.panelHeaderHeight) }

/-- rui_panel_button (lines 903-930). -/
def rui_panel_button (inp : Input) (height : ℚ) (s : Engine) : Bool × Engine :=
  if s.panelActive then
    let targetWidth := ruiContentTargetWidth s
    let x := ruiContentX s targetWidth
    let r : Rect := ⟨x, s.panelCursorY - s.scrollOffset, targetWidth, height⟩
    (rui_button inp r, ruiAdvanceCursor s (height + rui_panelSpacing))
  else (false, s)

/-- rui_panel_label_color (lines 944-982): the measured text height comes from
the Renderer and is passed in. -/
def rui_panel_label_color (textHeight : ℚ) (s : Engine) : Engine :=
  if s.panelActive then ruiAdvanceCursor s (textHeight + rui_panelSpacing)
  else s

/-- rui_panel_spacer (lines 984-988): advances by the bare height, no
spacing. -/
def rui_panel_spacer (height : ℚ) (s : Engine) : Engine :=
  if s.panelActive then ruiAdvanceCursor s height
  else s

/-- rui_panel_set_content_width (lines 990-998).  Note: no panelActive
guard in the source. -/
def rui_panel_set_content_width (width : ℚ) (s : Engine) : Engine :=
  if width ≤ 0 then
    { s with panelContentWidth := s.panelInnerRight - s.panelInnerLeft }
  else
    let maxWidth := s.panelInnerRight - s.panelInnerLeft
    { s with panelContentWidth := if width > maxWidth then maxWidth else width }

/-- rui_panel_slider (lines 1000-1023). -/
def rui_panel_slider (inp : Input) (height value minValue maxValue : ℚ)
    (s : Engine) : ℚ × Engine :=
  if s.panelActive then
    let targetWidth := ruiContentTargetWidth s
    let x := ruiContentX s targetWidth
    let bounds : Rect := ⟨x, s.panelCursorY - s.scrollOffset, targetWidth, height⟩
    let r := rui_slider inp bounds value minValue maxValue s
    (r.1, ruiAdvanceCursor r.2 (height + rui_panelSpacing))
  else (value, s)

/-- rui_panel_toggle (lines 1033-1058). -/
def rui_panel_toggle (inp : Input) (value : Bool) (s : Engine) : Bool × Engine :=
  if s.panelActive then
    let height0 := s.textFontSize + 8
    let height := if height0 < 24 then (24 : ℚ) else height0
    let targetWidth := ruiContentTargetWidth s
    let x := ruiContentX s targetWidth
    let bounds : Rect := ⟨x, s.panelCursorY - s.scrollOffset, targetWidth, height⟩
    (rui_toggle inp bounds value, ruiAdvanceCursor s (height + rui_panelSpacing))
  else (value, s)

/-- rui_panel_text_input (lines 1068-1091).  The inner call to
rui_text_input_box acts on the caller-owned TextInput and the focus globals,
state disjoint from Engine and modelled above; its returned changed flag is
passed in as boxChanged. -/
def rui_panel_text_input (boxChanged : Bool) (height : ℚ) (s : Engine) : Bool × Engine :=
  if s.panelActive then
    (boxChanged, ruiAdvanceCursor s (height + rui_panelSpacing))
  else (false, s)

/-- One child-widget call inside a panel session, with the externally
measured or delegated quantities carried as data. -/
inductive Widget where
  | buttonW (height : ℚ)
  | labelW (textHeight : ℚ)
  | spacerW (height : ℚ)
  | widthW (width : ℚ)
  | sliderW (height value minValue maxValue : ℚ)
  | toggleW (value : Bool)
  | textInputW (changed : Bool) (height : ℚ)

/-- Run one child-widget call for its state effect. -/
def applyWidget (inp : Input) : Widget → Engine → Engine
  | .buttonW h, s => (rui_panel_button inp h s).2
  | .labelW th, s => rui_panel_label_color th s
  | .spacerW h, s => rui_panel_spacer h s
  | .widthW w, s => rui_panel_set_content_width w s
  | .sliderW h v lo hi, s => (rui_panel_slider inp h v lo hi s).2
  | .toggleW v, s => (rui_panel_toggle inp v s).2
  | .textInputW ch h, s => (rui_panel_text_input ch h s).2

/-- The child-widget calls of one session, in call order. -/
def runWidgets (inp : Input) : List Widget → Engine → Engine
  | [], s => s
  | w :: rest, s => runWidgets inp rest (applyWidget inp w s)

/-- One panel session of a frame: a begin with its arguments and sampled
input, the child widgets, and the matching end. -/
structure Session where
  bounds : Rect
  hasTitle : Bool
  scrollable : Bool
  align : RuiAlign
  alphaArg : ℚ
  input : Input
  widgets : List Widget

/-- Execute one session: rui_panel_begin_internal, the child widgets, then
rui_panel_end. -/
def runSession (fr : Session) (s : Engine) : Engine :=
  rui_panel_end fr.input
    (runWidgets fr.input fr.widgets
      (rui_panel_begin_internal fr.input fr.bounds fr.hasTitle fr.scrollable
        fr.align fr.alphaArg s))

/-- Execute a sequence of panel sessions across frames. -/
def runFrames : List Session → Engine → Engine
  | [], s => s
  | fr :: rest, s => runFrames rest (runSession fr s)

/-- The scroll-offset bound of the specification, stated over the stored
previous content height and the viewport of the most recent scrollable
session. -/
def scrollInv (s : Engine) : Prop :=
  0 ≤ s.scrollOffset ∧
  s.scrollOffset ≤ max 0 (s.prevContentHeight - s.lastScrollableViewHeight)

/-! ## Concrete states used to evaluate the definitions -/

/-- The alpha stack after seven pushes of factor 1/2 from the initial state:
top sits at the last slot (index 7 = capacity - 1), so the stack is at
capacity. -/
def alphaStackFull : AlphaState :=
  { stack := [1, 1/2, 1/4, 1/8, 1/16, 1/32, 1/64, 1/128]
    top := 7
    current := 1/128 }

/-- A fresh empty text-input state over an 8-byte caller buffer. -/
def tInputExample : TextInput :=
  { buffer := fun _ => 0, capacity := 8, length := 0, cursor := 0
    active := false, blinkTimer := 0 }

/-- A frame with the mouse at the origin and no activity. -/
def inputZero : Input :=
  { mouseX := 0, mouseY := 0, mousePressed := false, mouseDown := false, wheel := 0 }

/-- A frame with the mouse at (50, 50) inside the demo panel and a wheel
delta of -3 notches. -/
def inputWheel : Input :=
  { mouseX := 50, mouseY := 50, mousePressed := false, mouseDown := false, wheel := -3 }

/-- A 100 x 100 panel rectangle at the origin. -/
def panelBounds : Rect := ⟨0, 0, 100, 100⟩

/-- Engine state after the lazy theme initialization has run. -/
def engineReady : Engine := rui_theme_reset engineInit

/-- Engine state of a later frame: the previous scrollable session recorded a
content height of 500. -/
def engineScrolled : Engine :=
  { engineReady with prevContentHeight := 500, hasPrevContent := true }

/-- Engine state right after some panel session closed: no session is open,
the content-width override was reset to 0, and the cached inner bounds of the
closed panel (inner right edge 100) persist in the globals. -/
def engineAfterPanel : Engine :=
  { engineReady with panelInnerRight := 100 }

/-- A non-scrollable titled session with two child widgets. -/
def sessionPlain : Session :=
  { bounds := ⟨20, 20, 200, 300⟩, hasTitle := true, scrollable := false
    align := .leftAlign, alphaArg := 1, input := inputZero
    widgets := [Widget.buttonW 30, Widget.spacerW 10] }

/-! ## Shared lemmas -/

theorem raymathClamp_mem (value lo hi : ℚ) (h : lo ≤ hi) :
    lo ≤ raymathClamp value lo hi ∧ raymathClamp value lo hi ≤ hi := by
  simp only [raymathClamp]
  split_ifs <;> constructor <;> linarith

theorem rui_clamp01_eq_self {x : ℚ} (h0 : 0 ≤ x) (h1 : x ≤ 1) : rui_clamp01 x = x := by
  simp only [rui_clamp01]
  split_ifs <;> linarith

theorem rui_push_alpha_current (x : ℚ) (s : AlphaState) :
    (rui_push_alpha x s).current = s.current * rui_clamp01 x := by
  simp only [rui_push_alpha]
  split_ifs <;> rfl

theorem rui_apply_alpha_congr {s t : AlphaState} (c : ℤ) (h : s.current = t.current) :
    rui_apply_alpha s c = rui_apply_alpha t c := by
  simp only [rui_apply_alpha, h]

theorem getD_set_ne (l : List ℚ) (m n : ℕ) (v d : ℚ) (h : m ≠ n) :
    (l.set m v).getD n d = l.getD n d := by
  simp [List.getD_eq_getElem?_getD, List.getElem?_set_ne h]

/-! ## Claim C2 -/

/-- Claim C2 (amended): a push made while the alpha stack is at its capacity
appends nothing — stack contents and depth are unchanged — but the effective
alpha is still multiplied by the clamped factor rather than staying at its
pre-call value. -/
theorem c2_push_at_capacity (a : ℚ) (s : AlphaState)
    (h : ¬ s.top < ruiAlphaCap - 1) :
    (rui_push_alpha a s).stack = s.stack ∧
    (rui_push_alpha a s).top = s.top ∧
    (rui_push_alpha a s).current = s.current * rui_clamp01 a := by
  simp [rui_push_alpha, if_neg h]

/-- Claim C2 witness: the amended statement evaluated at the full stack
reached by seven pushes of 1/2. -/
theorem c2_push_at_capacity_witness :
    (¬ alphaStackFull.top < ruiAlphaCap - 1) ∧
    ((rui_push_alpha (1/2) alphaStackFull).stack = alphaStackFull.stack ∧
     (rui_push_alpha (1/2) alphaStackFull).top = alphaStackFull.top ∧
     (rui_push_alpha (1/2) alphaStackFull).current =
       alphaStackFull.current * rui_clamp01 (1/2)) :=
  ⟨by decide, c2_push_at_capacity (1/2) alphaStackFull (by decide)⟩

/-- Claim C2 counterexample: at capacity the push is dropped from the stack,
yet the effective alpha changes (1/128 becomes 1/256), refuting the claim
that it equals its value before the call. -/
theorem c2_counterexample :
    (¬ alphaStackFull.top < ruiAlphaCap - 1) ∧
    (rui_push_alpha (1/2) alphaStackFull).current ≠ alphaStackFull.current := by
  constructor
  · decide
  · norm_num [rui_push_alpha, alphaStackFull, ruiAlphaCap, rui_clamp01]

/-! ## Claim C6 -/

/-- Claim C6 (amended): for EVERY stack state, pushing factors a then b and
applying to a channel value gives exactly the result of pushing the single
factor a*b (for factors in the unit interval, over exact rational arithmetic
— hence within the rounding the claim allows); and popping immediately after
a push restores the pre-push effective alpha provided the push happened below
capacity with the current alpha in sync with the top entry (true of every
state reachable without overflow). -/
theorem c6_alpha_composition (a b f : ℚ) (c : ℤ) (s : AlphaState)
    (ha0 : 0 ≤ a) (ha1 : a ≤ 1) (hb0 : 0 ≤ b) (hb1 : b ≤ 1)
    (hc0 : 0 ≤ c) (hc1 : c ≤ 255) :
    rui_apply_alpha (rui_push_alpha b (rui_push_alpha a s)) c =
      rui_apply_alpha (rui_push_alpha (a * b) s) c ∧
    (s.top < ruiAlphaCap - 1 → s.current = s.stack.getD s.top 0 →
      (rui_pop_alpha (rui_push_alpha f s)).current = s.current) := by
  constructor
  · apply rui_apply_alpha_congr
    rw [rui_push_alpha_current, rui_push_alpha_current, rui_push_alpha_current]
    rw [rui_clamp01_eq_self ha0 ha1, rui_clamp01_eq_self hb0 hb1,
        rui_clamp01_eq_self (mul_nonneg ha0 hb0) (mul_le_one₀ ha1 hb0 hb1)]
    ring
  · intro htop hsync
    simp only [rui_push_alpha, if_pos htop, rui_pop_alpha]
    rw [if_pos (Nat.succ_pos s.top)]
    simp only [Nat.add_sub_cancel]
    rw [getD_set_ne _ _ _ _ _ (Nat.succ_ne_self s.top)]
    exact hsync.symm

/-- Claim C6 witness: the amended statement evaluated at the initial stack
with factors 1/2 and 1/2, channel 100, and pop-test factor 1/3. -/
theorem c6_alpha_composition_witness :
    ((0:ℚ) ≤ 1/2 ∧ (1:ℚ)/2 ≤ 1 ∧ (0:ℤ) ≤ 100 ∧ (100:ℤ) ≤ 255 ∧
     alphaStackInit.top < ruiAlphaCap - 1 ∧
     alphaStackInit.current = alphaStackInit.stack.getD alphaStackInit.top 0) ∧
    (rui_apply_alpha (rui_push_alpha (1/2) (rui_push_alpha (1/2) alphaStackInit)) 100 =
       rui_apply_alpha (rui_push_alpha ((1/2) * (1/2)) alphaStackInit) 100 ∧
     (rui_pop_alpha (rui_push_alpha (1/3) alphaStackInit)).current =
       alphaStackInit.current) :=
  ⟨⟨by norm_num, by norm_num, by decide, by decide, by decide, rfl⟩,
   (c6_alpha_composition (1/2) (1/2) (1/3) 100 alphaStackInit
      (by norm_num) (by norm_num) (by norm_num) (by norm_num)
      (by decide) (by decide)).1,
   (c6_alpha_composition (1/2) (1/2) (1/3) 100 alphaStackInit
      (by norm_num) (by norm_num) (by norm_num) (by norm_num)
      (by decide) (by decide)).2 (by decide) rfl⟩

/-- Claim C6 counterexample: at a full stack the push's factor still folds
into the effective alpha but is not appended, so the following pop lands on
the entry below the old top (1/64) instead of the pre-push value (1/128) —
pop does not restore the pre-push effective alpha for every stack state. -/
theorem c6_counterexample :
    (rui_pop_alpha (rui_push_alpha (1/2) alphaStackFull)).current ≠
      alphaStackFull.current := by
  norm_num [rui_pop_alpha, rui_push_alpha, alphaStackFull, ruiAlphaCap, rui_clamp01,
    List.getD_cons_succ, List.getD_cons_zero]

/-! ## Claim C4 -/

theorem set_cursor_TIInv (t : TextInput) (p : ℤ)
    (hlen : 0 ≤ t.length) (hcap : t.length < t.capacity) :
    TIInv (rui_text_input_set_cursor t p) := by
  simp only [TIInv, rui_text_input_set_cursor]
  split_ifs <;> omega

theorem insert_char_TIInv (t : TextInput) (c : ℤ) (h : TIInv t) :
    TIInv (rui_text_input_insert_char t c) := by
  obtain ⟨h1, h2, h3⟩ := h
  simp only [rui_text_input_insert_char]
  split_ifs with g1 g2 g3
  · exact ⟨h1, h2, h3⟩
  · exact ⟨h1, h2, h3⟩
  · exact ⟨h1, h2, h3⟩
  · exact set_cursor_TIInv _ _ (by simp; omega) (by simp; omega)

theorem backspace_TIInv (t : TextInput) (h : TIInv t) :
    TIInv (rui_text_input_backspace t) := by
  obtain ⟨h1, h2, h3⟩ := h
  simp only [rui_text_input_backspace]
  split_ifs with g1
  · exact ⟨h1, h2, h3⟩
  · exact set_cursor_TIInv _ _ (by simp; omega) (by simp; omega)

theorem delete_TIInv (t : TextInput) (h : TIInv t) :
    TIInv (rui_text_input_delete t) := by
  obtain ⟨h1, h2, h3⟩ := h
  simp only [rui_text_input_delete]
  split_ifs with g1
  · exact ⟨h1, h2, h3⟩
  · exact ⟨by simpa using h1, by simp; omega, by simp; omega⟩

theorem applyTIOp_TIInv (op : TIOp) (t : TextInput) (h : TIInv t) :
    TIInv (applyTIOp op t) := by
  obtain ⟨h1, h2, h3⟩ := h
  cases op with
  | leftKey => exact set_cursor_TIInv _ _ (by omega) h3
  | rightKey => exact set_cursor_TIInv _ _ (by omega) h3
  | homeKey => exact set_cursor_TIInv _ _ (by omega) h3
  | endKey => exact set_cursor_TIInv _ _ (by omega) h3
  | insertChar c => exact insert_char_TIInv t c ⟨h1, h2, h3⟩
  | backKey => exact backspace_TIInv t ⟨h1, h2, h3⟩
  | deleteKey => exact delete_TIInv t ⟨h1, h2, h3⟩

/-- Claim C4: from any text-input state with 0 ≤ cursor ≤ length < capacity,
every finite sequence of cursor-left, cursor-right, home, end,
insert-character, backspace and delete operations keeps
0 ≤ cursor ≤ length ∧ length < capacity; since the sequence is universally
quantified, the invariant holds after every operation of any sequence. -/
theorem c4_cursor_invariant (ops : List TIOp) (t : TextInput) (h : TIInv t) :
    TIInv (runTIOps ops t) := by
  induction ops generalizing t with
  | nil => exact h
  | cons op rest ih => exact ih (applyTIOp op t) (applyTIOp_TIInv op t h)

/-- Claim C4 witness: the invariant evaluated on a fresh 8-byte field after
a concrete editing sequence. -/
theorem c4_cursor_invariant_witness :
    TIInv tInputExample ∧
    TIInv (runTIOps [TIOp.insertChar 80, TIOp.insertChar 105, TIOp.leftKey,
      TIOp.backKey, TIOp.homeKey, TIOp.deleteKey, TIOp.insertChar 33,
      TIOp.endKey, TIOp.rightKey] tInputExample) :=
  ⟨by decide, c4_cursor_invariant _ tInputExample (by decide)⟩

/-! ## Claim C10 -/

/-- Claim C10 (refuted, code bug): for the state produced by
rui_text_input_init over a full 2-byte caller buffer — which satisfies the
claimed hypotheses 0 ≤ cursor ≤ length < capacity and cursor ≥ 1 — the
backspace copy loop reads buffer index length + 1 = capacity = 2, an index
NOT strictly less than the capacity, i.e. one past the end of the caller
buffer. -/
theorem c10_backspace_reads_capacity :
    (0 ≤ tInitFull.cursor ∧ tInitFull.cursor ≤ tInitFull.length ∧
     tInitFull.length < tInitFull.capacity ∧ 1 ≤ tInitFull.cursor) ∧
    tInitFull.capacity ∈ backspaceReadIdx tInitFull := by
  decide

/-! ## Claim C9 -/

/-- Claim C9: rui_fade_start records the current alpha as start, stores
target and duration, resets elapsed to 0, snaps to the target and goes
inactive when duration ≤ 0, and otherwise activates; under rui_advance_fade
the alpha is the linear interpolation at progress (elapsed+dt)/duration
clamped to the unit interval; once elapsed reaches the duration the alpha is
exactly the target and the animator is inactive; and the concrete
FadeTo(255, 0.6) scenario from alpha 0 yields 127.5 after 0.3 and 255
(inactive) after a further 0.3. -/
theorem c9_fade_animator (f : FadeState) (target duration dt : ℚ) :
    ((rui_fade_start target duration f).fadeStartAlpha = f.fadeAlpha ∧
     (rui_fade_start target duration f).fadeTargetAlpha = target ∧
     (rui_fade_start target duration f).fadeDuration = duration ∧
     (rui_fade_start target duration f).fadeElapsed = 0 ∧
     (duration ≤ 0 → (rui_fade_start target duration f).fadeAlpha = target ∧
        (rui_fade_start target duration f).fadeActive = false) ∧
     (0 < duration → (rui_fade_start target duration f).fadeActive = true)) ∧
    (f.fadeActive = true → 0 < f.fadeDuration → 0 ≤ f.fadeElapsed + dt →
      (rui_advance_fade dt f).fadeAlpha =
        f.fadeStartAlpha + (f.fadeTargetAlpha - f.fadeStartAlpha) *
          min (max ((f.fadeElapsed + dt) / f.fadeDuration) 0) 1) ∧
    (f.fadeActive = true → 0 < f.fadeDuration → f.fadeDuration ≤ f.fadeElapsed + dt →
      (rui_advance_fade dt f).fadeAlpha = f.fadeTargetAlpha ∧
      (rui_advance_fade dt f).fadeActive = false) ∧
    ((rui_advance_fade (3/10) (rui_fade_start 255 (3/5) fadeStateInit)).fadeAlpha
        = 255/2 ∧
     (rui_advance_fade (3/10) (rui_advance_fade (3/10)
        (rui_fade_start 255 (3/5) fadeStateInit))).fadeAlpha = 255 ∧
     (rui_advance_fade (3/10) (rui_advance_fade (3/10)
        (rui_fade_start 255 (3/5) fadeStateInit))).fadeActive = false) := by
  refine ⟨⟨?_, ?_, ?_, ?_, ?_, ?_⟩, ?_, ?_, ?_⟩
  · simp only [rui_fade_start]; split_ifs <;> rfl
  · simp only [rui_fade_start]; split_ifs <;> rfl
  · simp only [rui_fade_start]; split_ifs <;> rfl
  · simp only [rui_fade_start]; split_ifs <;> rfl
  · intro h; simp [rui_fade_start, if_pos h]
  · intro h; simp only [rui_fade_start, if_neg (by linarith : ¬ duration ≤ 0)]
  · intro hact hdur hel
    simp only [rui_advance_fade, hact, if_true, if_neg (by linarith : ¬ f.fadeDuration ≤ 0)]
    have hnn : 0 ≤ (f.fadeElapsed + dt) / f.fadeDuration := div_nonneg hel (le_of_lt hdur)
    rw [max_eq_left hnn]
    split_ifs with h1
    · rw [min_eq_right h1]
    · rw [min_eq_left (le_of_not_le (fun hc => h1 hc))]
  · intro hact hdur hcomp
    have h1 : (f.fadeElapsed + dt) / f.fadeDuration ≥ 1 := (one_le_div hdur).mpr hcomp
    simp only [rui_advance_fade, hact, if_true,
      if_neg (by linarith : ¬ f.fadeDuration ≤ 0), if_pos h1]
    constructor
    · ring
    · trivial
  · refine ⟨?_, ?_, ?_⟩
    · norm_num [rui_advance_fade, rui_fade_start, fadeStateInit]
    · norm_num [rui_advance_fade, rui_fade_start, fadeStateInit]
    · norm_num [rui_advance_fade, rui_fade_start, fadeStateInit]

/-- Claim C9 witness: the interpolation clause evaluated at the concrete
fade FadeTo(255, 0.6) advanced by 0.3. -/
theorem c9_fade_animator_witness :
    (rui_fade_start 255 (3/5) fadeStateInit).fadeActive = true ∧
    (0:ℚ) < (rui_fade_start 255 (3/5) fadeStateInit).fadeDuration ∧
    (rui_advance_fade (3/10) (rui_fade_start 255 (3/5) fadeStateInit)).fadeAlpha =
      (rui_fade_start 255 (3/5) fadeStateInit).fadeStartAlpha +
        ((rui_fade_start 255 (3/5) fadeStateInit).fadeTargetAlpha -
         (rui_fade_start 255 (3/5) fadeStateInit).fadeStartAlpha) *
          min (max (((rui_fade_start 255 (3/5) fadeStateInit).fadeElapsed + 3/10) /
                (rui_fade_start 255 (3/5) fadeStateInit).fadeDuration) 0) 1 :=
  ⟨by norm_num [rui_fade_start, fadeStateInit],
   by norm_num [rui_fade_start, fadeStateInit],
   (c9_fade_animator (rui_fade_start 255 (3/5) fadeStateInit) 255 (3/5) (3/10)).2.1
     (by norm_num [rui_fade_start, fadeStateInit])
     (by norm_num [rui_fade_start, fadeStateInit])
     (by norm_num [rui_fade_start, fadeStateInit])⟩

/-! ## Claim C8 -/

theorem focusInv_set_active (t : Option ℕ) (w : FocusWorld) (h : focusInv w) :
    focusInv (rui_text_input_set_active t w) := by
  intro k hk
  show t = some k
  simp only [rui_text_input_set_active] at hk
  cases t with
  | some i =>
    dsimp only at hk
    by_cases hki : k = i
    · rw [hki]
    · exfalso
      rw [Function.update_noteq hki] at hk
      cases hA : w.activeId with
      | none =>
        rw [hA] at hk
        simp only at hk
        have hka := h k hk
        rw [hA] at hka
        exact Option.noConfusion hka
      | some j =>
        rw [hA] at hk
        simp only at hk
        by_cases hij : (some i : Option ℕ) = some j
        · rw [if_neg (fun hcon => hcon hij)] at hk
          have hka := h k hk
          rw [hA] at hka
          exact hki (by rw [Option.some.inj hij, (Option.some.inj hka).symm])
        · rw [if_pos hij] at hk
          by_cases hkj : k = j
          · subst hkj
            rw [Function.update_same] at hk
            exact Bool.noConfusion hk
          · rw [Function.update_noteq hkj] at hk
            have hka := h k hk
            rw [hA] at hka
            exact hkj (Option.some.inj hka).symm
  | none =>
    dsimp only at hk
    exfalso
    cases hA : w.activeId with
    | none =>
      rw [hA] at hk
      simp only at hk
      have hka := h k hk
      rw [hA] at hka
      exact Option.noConfusion hka
    | some j =>
      rw [hA] at hk
      simp only at hk
      rw [if_pos (by simp : (none : Option ℕ) ≠ some j)] at hk
      by_cases hkj : k = j
      · subst hkj
        rw [Function.update_same] at hk
        exact Bool.noConfusion hk
      · rw [Function.update_noteq hkj] at hk
        have hka := h k hk
        rw [hA] at hka
        exact hkj (Option.some.inj hka).symm

theorem focusInv_clear_flag (w : FocusWorld) (i : ℕ) (h : focusInv w) :
    focusInv { w with flags := Function.update w.flags i false } := by
  intro k hk
  by_cases hki : k = i
  · subst hki
    rw [show ({ w with flags := Function.update w.flags k false } : FocusWorld).flags
          = Function.update w.flags k false from rfl, Function.update_same] at hk
    exact Bool.noConfusion hk
  · rw [show ({ w with flags := Function.update w.flags i false } : FocusWorld).flags
          = Function.update w.flags i false from rfl, Function.update_noteq hki] at hk
    exact h k hk

theorem focusInv_applyFocusEvent (e : FocusEvent) (w : FocusWorld) (h : focusInv w) :
    focusInv (applyFocusEvent e w) := by
  cases e with
  | clickInside i =>
    simp only [applyFocusEvent]
    exact focusInv_set_active _ _ h
  | clickOutside i =>
    simp only [applyFocusEvent]
    split_ifs with hA
    · exact focusInv_set_active _ _ (focusInv_clear_flag w i h)
    · exact h
  | escapeOrEnter i =>
    simp only [applyFocusEvent]
    split_ifs with hA
    · exact focusInv_set_active _ _ (focusInv_clear_flag w i h)
    · exact h

theorem focusInv_runFocusEvents (evs : List FocusEvent) (w : FocusWorld)
    (h : focusInv w) : focusInv (runFocusEvents evs w) := by
  induction evs generalizing w with
  | nil => exact h
  | cons e rest ih => exact ih (applyFocusEvent e w) (focusInv_applyFocusEvent e w h)

theorem focusInv_init : focusInv focusWorldInit := by
  intro i h
  simp [focusWorldInit] at h

/-- Claim C8: activating instance B while distinct instance A holds focus
leaves A's flag false and B's true with B recorded as active; and after any
sequence of focus transitions from process start, at most one instance has
its focus flag set and that instance is the recorded active input. -/
theorem c8_exclusive_focus :
    (∀ (w : FocusWorld) (A B : ℕ), focusInv w → w.flags A = true → A ≠ B →
      (rui_text_input_set_active (some B) w).flags A = false ∧
      (rui_text_input_set_active (some B) w).flags B = true ∧
      (rui_text_input_set_active (some B) w).activeId = some B) ∧
    (∀ evs : List FocusEvent,
      (∀ i j, (runFocusEvents evs focusWorldInit).flags i = true →
              (runFocusEvents evs focusWorldInit).flags j = true → i = j) ∧
      (∀ i, (runFocusEvents evs focusWorldInit).flags i = true →
            (runFocusEvents evs focusWorldInit).activeId = some i)) := by
  constructor
  · intro w A B hInv hA hAB
    have hActive : w.activeId = some A := hInv A hA
    have hne : (some B : Option ℕ) ≠ some A := fun hc => hAB (Option.some.inj hc).symm
    refine ⟨?_, ?_, rfl⟩
    · simp only [rui_text_input_set_active, hActive]
      rw [Function.update_noteq hAB, if_pos hne, Function.update_same]
    · simp only [rui_text_input_set_active, hActive]
      rw [Function.update_same]
  · intro evs
    have hInv := focusInv_runFocusEvents evs focusWorldInit focusInv_init
    constructor
    · intro i j hi hj
      exact Option.some.inj ((hInv i hi).symm.trans (hInv j hj))
    · exact hInv

/-- Claim C8 witness: field 0 focused, then field 1 activated — evaluated
from the initial world. -/
theorem c8_exclusive_focus_witness :
    ((rui_text_input_set_active (some 1)
        (rui_text_input_set_active (some 0) focusWorldInit)).flags 0 = false ∧
     (rui_text_input_set_active (some 1)
        (rui_text_input_set_active (some 0) focusWorldInit)).flags 1 = true ∧
     (rui_text_input_set_active (some 1)
        (rui_text_input_set_active (some 0) focusWorldInit)).activeId = some 1) ∧
    (runFocusEvents [FocusEvent.clickInside 0, FocusEvent.clickInside 1]
        focusWorldInit).activeId = some 1 :=
  ⟨c8_exclusive_focus.1 (rui_text_input_set_active (some 0) focusWorldInit) 0 1
     (focusInv_set_active (some 0) focusWorldInit focusInv_init) rfl (by decide),
   (c8_exclusive_focus.2 [FocusEvent.clickInside 0, FocusEvent.clickInside 1]).2 1 rfl⟩

/-! ## Claim C5 -/

/-- Claim C5 (amended): with no open session, the button, label, spacer,
slider, toggle and text-field child calls leave the engine state unchanged
and return their neutral defaults (false for button and text field, the input
value for slider and toggle).  The content-width override is excluded: it has
no session guard in the source. -/
theorem c5_widgets_noop_outside_session (s : Engine) (h : s.panelActive = false) :
    (∀ (inp : Input) (height : ℚ), rui_panel_button inp height s = (false, s)) ∧
    (∀ textHeight : ℚ, rui_panel_label_color textHeight s = s) ∧
    (∀ height : ℚ, rui_panel_spacer height s = s) ∧
    (∀ (inp : Input) (height value minValue maxValue : ℚ),
       rui_panel_slider inp height value minValue maxValue s = (value, s)) ∧
    (∀ (inp : Input) (value : Bool), rui_panel_toggle inp value s = (value, s)) ∧
    (∀ (boxChanged : Bool) (height : ℚ),
       rui_panel_text_input boxChanged height s = (false, s)) := by
  refine ⟨fun inp height => ?_, fun textHeight => ?_, fun height => ?_,
          fun inp height value minValue maxValue => ?_, fun inp value => ?_,
          fun boxChanged height => ?_⟩ <;>
    simp [rui_panel_button, rui_panel_label_color, rui_panel_spacer,
      rui_panel_slider, rui_panel_toggle, rui_panel_text_input, h]

/-- Claim C5 witness: the no-op equations evaluated at the initial engine
state (no session open). -/
theorem c5_widgets_noop_witness :
    engineInit.panelActive = false ∧
    rui_panel_button inputZero 30 engineInit = (false, engineInit) ∧
    rui_panel_slider inputZero 20 (1/2) 0 1 engineInit = (1/2, engineInit) ∧
    rui_panel_toggle inputZero true engineInit = (true, engineInit) :=
  ⟨rfl,
   (c5_widgets_noop_outside_session engineInit rfl).1 inputZero 30,
   (c5_widgets_noop_outside_session engineInit rfl).2.2.2.1 inputZero 20 (1/2) 0 1,
   (c5_widgets_noop_outside_session engineInit rfl).2.2.2.2.1 inputZero true⟩

/-- Claim C5 counterexample: rui_panel_set_content_width mutates the stored
content width even though no session is open — the claim that every child
call (including the content-width override) leaves the engine state unchanged
is false.  The state is the one a closed panel leaves behind: panelActive
false, content width reset to 0, cached inner right edge 100. -/
theorem c5_counterexample :
    engineAfterPanel.panelActive = false ∧
    rui_panel_set_content_width 50 engineAfterPanel ≠ engineAfterPanel := by
  constructor
  · rfl
  · intro hcon
    have hw := congrArg Engine.panelContentWidth hcon
    rw [show (rui_panel_set_content_width 50 engineAfterPanel).panelContentWidth
          = 50 by norm_num [rui_panel_set_content_width, engineAfterPanel,
            engineReady, rui_theme_reset, engineInit]] at hw
    norm_num [engineAfterPanel, engineReady, rui_theme_reset, engineInit] at hw

/-! ## Claim C3 -/

theorem begin_scrollOffset_eq (inp : Input) (bounds : Rect) (hasTitle scrollable : Bool)
    (al : RuiAlign) (alphaArg : ℚ) (s : Engine) :
    (rui_panel_begin_internal inp bounds hasTitle scrollable al alphaArg s).scrollOffset =
      (let s1 := if s.themeInitialized then s else rui_theme_reset s
       let headerH := rui_calculate_header_height s1.titleFontSize hasTitle
       let viewHeight := bounds.h - headerH
       if scrollable then
         let o := if pointInRec inp.mouseX inp.mouseY bounds
                  then s1.scrollOffset + inp.wheel * 20 else s1.scrollOffset
         let maxOffset := s1.prevContentHeight - viewHeight
         if maxOffset > 0 then raymathClamp o 0 maxOffset
         else if s1.hasPrevContent then 0 else o
       else 0) := rfl

/-- Claim C3 (amended): at the Open of a scrollable session, after the wheel
delta is added (when the pointer is inside the bounds), the offset is clamped
into the range from 0 to previousContentHeight - viewportHeight whenever the
previous frame's recorded content height exceeds the viewport; when it does
not, the offset is snapped to zero only if the has-previous-content flag is
set — if no scrollable session has recorded a height yet, the offset is left
at its wheel-adjusted value. -/
theorem c3_open_clamp_policy (inp : Input) (bounds : Rect) (hasTitle : Bool)
    (al : RuiAlign) (alphaArg : ℚ) (s : Engine)
    (hTheme : s.themeInitialized = true) :
    (s.prevContentHeight -
        (bounds.h - rui_calculate_header_height s.titleFontSize hasTitle) > 0 →
      (rui_panel_begin_internal inp bounds hasTitle true al alphaArg s).scrollOffset =
        raymathClamp
          (if pointInRec inp.mouseX inp.mouseY bounds
           then s.scrollOffset + inp.wheel * 20 else s.scrollOffset) 0
          (s.prevContentHeight -
            (bounds.h - rui_calculate_header_height s.titleFontSize hasTitle)) ∧
      0 ≤ (rui_panel_begin_internal inp bounds hasTitle true al alphaArg s).scrollOffset ∧
      (rui_panel_begin_internal inp bounds hasTitle true al alphaArg s).scrollOffset ≤
        s.prevContentHeight -
          (bounds.h - rui_calculate_header_height s.titleFontSize hasTitle)) ∧
    (s.prevContentHeight -
        (bounds.h - rui_calculate_header_height s.titleFontSize hasTitle) ≤ 0 →
      s.hasPrevContent = true →
      (rui_panel_begin_internal inp bounds hasTitle true al alphaArg s).scrollOffset = 0) ∧
    (s.prevContentHeight -
        (bounds.h - rui_calculate_header_height s.titleFontSize hasTitle) ≤ 0 →
      s.hasPrevContent = false →
      (rui_panel_begin_internal inp bounds hasTitle true al alphaArg s).scrollOffset =
        (if pointInRec inp.mouseX inp.mouseY bounds
         then s.scrollOffset + inp.wheel * 20 else s.scrollOffset)) := by
  have hoff := begin_scrollOffset_eq inp bounds hasTitle true al alphaArg s
  simp only [hTheme, if_true, ite_true] at hoff
  refine ⟨fun hgt => ?_, fun hle hprev => ?_, fun hle hprev => ?_⟩
  · rw [hoff, if_pos hgt]
    refine ⟨rfl, ?_, ?_⟩
    · exact (raymathClamp_mem _ 0 _ (le_of_lt hgt)).1
    · exact (raymathClamp_mem _ 0 _ (le_of_lt hgt)).2
  · rw [hoff, if_neg (by linarith), if_pos hprev]
  · rw [hoff, if_neg (by linarith), if_neg (by simp [hprev])]

/-- Claim C3 witness: the clamp clause evaluated on a frame whose previous
scrollable session recorded content height 500 inside a 100 x 100 untitled
panel (viewport 82): the bound 0 ≤ offset ≤ 418 holds after the Open. -/
theorem c3_open_clamp_policy_witness :
    engineScrolled.themeInitialized = true ∧
    engineScrolled.prevContentHeight -
      (panelBounds.h -
        rui_calculate_header_height engineScrolled.titleFontSize false) > 0 ∧
    (0 ≤ (rui_panel_begin_internal inputWheel panelBounds false true
            RuiAlign.leftAlign 1 engineScrolled).scrollOffset ∧
     (rui_panel_begin_internal inputWheel panelBounds false true
        RuiAlign.leftAlign 1 engineScrolled).scrollOffset ≤
       engineScrolled.prevContentHeight -
         (panelBounds.h -
           rui_calculate_header_height engineScrolled.titleFontSize false)) :=
  ⟨rfl,
   by norm_num [engineScrolled, engineReady, rui_theme_reset, engineInit,
     panelBounds, rui_calculate_header_height, rui_panelPadding],
   ((c3_open_clamp_policy inputWheel panelBounds false RuiAlign.leftAlign 1
       engineScrolled rfl).1
     (by norm_num [engineScrolled, engineReady, rui_theme_reset, engineInit,
       panelBounds, rui_calculate_header_height, rui_panelPadding])).2⟩

/-- Claim C3 counterexample: on the very first frame (has-previous-content
still false) with previous content height 0 — which does NOT exceed the
82-pixel viewport — a wheel delta of -3 with the pointer inside the panel
leaves the offset at -60 instead of setting it to zero, refuting the claim
that the offset is set to zero for every such state. -/
theorem c3_counterexample :
    engineReady.prevContentHeight ≤
      panelBounds.h - rui_calculate_header_height engineReady.titleFontSize false ∧
    (rui_panel_begin_internal inputWheel panelBounds false true
       RuiAlign.leftAlign 1 engineReady).scrollOffset ≠ 0 := by
  constructor
  · norm_num [engineReady, rui_theme_reset, engineInit, panelBounds,
      rui_calculate_header_height, rui_panelPadding]
  · rw [begin_scrollOffset_eq]
    norm_num [engineReady, rui_theme_reset, engineInit, panelBounds,
      rui_calculate_header_height, rui_panelPadding, inputWheel, pointInRec]

/-! ## Session-level lemmas for Claims C7 and C1 -/

theorem applyWidget_eq (inp : Input) (w : Widget) (s : Engine) :
    ∃ c ch cw sd asl, applyWidget inp w s =
      { s with panelCursorY := c, contentHeight := ch, panelContentWidth := cw
               sliderDragging := sd, activeSlider := asl } := by
  cases w <;>
    simp only [applyWidget, rui_panel_button, rui_panel_label_color, rui_panel_spacer,
      rui_panel_set_content_width, rui_panel_slider, rui_panel_toggle,
      rui_panel_text_input] <;>
    split_ifs <;>
    first
      | exact ⟨s.panelCursorY, s.contentHeight, s.panelContentWidth,
          s.sliderDragging, s.activeSlider, rfl⟩
      | exact ⟨_, _, s.panelContentWidth, s.sliderDragging, s.activeSlider, rfl⟩
      | exact ⟨s.panelCursorY, s.contentHeight, _, s.sliderDragging, s.activeSlider, rfl⟩
      | exact ⟨_, _, s.panelContentWidth, _, _, rfl⟩

theorem runWidgets_eq (inp : Input) (ws : List Widget) (s : Engine) :
    ∃ c ch cw sd asl, runWidgets inp ws s =
      { s with panelCursorY := c, contentHeight := ch, panelContentWidth := cw
               sliderDragging := sd, activeSlider := asl } := by
  induction ws generalizing s with
  | nil =>
    exact ⟨s.panelCursorY, s.contentHeight, s.panelContentWidth,
      s.sliderDragging, s.activeSlider, rfl⟩
  | cons w rest ih =>
    obtain ⟨c1, ch1, cw1, sd1, a1, he1⟩ := applyWidget_eq inp w s
    obtain ⟨c2, ch2, cw2, sd2, a2, he2⟩ := ih (applyWidget inp w s)
    refine ⟨c2, ch2, cw2, sd2, a2, ?_⟩
    show runWidgets inp rest (applyWidget inp w s) = _
    rw [he2, he1]

theorem themed_state_fields (s : Engine) :
    (if s.themeInitialized then s else rui_theme_reset s).scrollOffset = s.scrollOffset ∧
    (if s.themeInitialized then s else rui_theme_reset s).prevContentHeight
      = s.prevContentHeight ∧
    (if s.themeInitialized then s else rui_theme_reset s).hasPrevContent
      = s.hasPrevContent ∧
    (if s.themeInitialized then s else rui_theme_reset s).lastScrollableViewHeight
      = s.lastScrollableViewHeight := by
  split_ifs <;> simp [rui_theme_reset]

theorem begin_fixed_fields (inp : Input) (bounds : Rect) (hasTitle scrollable : Bool)
    (al : RuiAlign) (alphaArg : ℚ) (s : Engine) :
    (rui_panel_begin_internal inp bounds hasTitle scrollable al alphaArg s).panelActive
      = true ∧
    (rui_panel_begin_internal inp bounds hasTitle scrollable al alphaArg s).panelScrollable
      = scrollable ∧
    (rui_panel_begin_internal inp bounds hasTitle scrollable al alphaArg
        s).scrollOffsetBeforePanel = s.scrollOffset ∧
    (rui_panel_begin_internal inp bounds hasTitle scrollable al alphaArg
        s).prevContentHeight = s.prevContentHeight ∧
    (rui_panel_begin_internal inp bounds hasTitle scrollable al alphaArg
        s).hasPrevContent = s.hasPrevContent ∧
    (scrollable = true →
      (rui_panel_begin_internal inp bounds hasTitle scrollable al alphaArg
          s).lastScrollableViewHeight =
        (rui_panel_begin_internal inp bounds hasTitle scrollable al alphaArg
            s).currentPanel.h -
          (rui_panel_begin_internal inp bounds hasTitle scrollable al alphaArg
              s).panelHeaderHeight) ∧
    (scrollable = false →
      (rui_panel_begin_internal inp bounds hasTitle scrollable al alphaArg
          s).lastScrollableViewHeight = s.lastScrollableViewHeight) := by
  obtain ⟨h1, h2, h3, h4⟩ := themed_state_fields s
  refine ⟨rfl, rfl, ?_, ?_, ?_, ?_, ?_⟩
  · exact h1
  · exact h2
  · exact h3
  · intro hsc
    show (if scrollable = true then
            bounds.h - rui_calculate_header_height
              (if s.themeInitialized then s else rui_theme_reset s).titleFontSize hasTitle
          else (if s.themeInitialized then s else rui_theme_reset s).lastScrollableViewHeight)
        = bounds.h - rui_calculate_header_height
            (if s.themeInitialized then s else rui_theme_reset s).titleFontSize hasTitle
    rw [if_pos hsc]
  · intro hsc
    show (if scrollable = true then
            bounds.h - rui_calculate_header_height
              (if s.themeInitialized then s else rui_theme_reset s).titleFontSize hasTitle
          else (if s.themeInitialized then s else rui_theme_reset s).lastScrollableViewHeight)
        = s.lastScrollableViewHeight
    rw [if_neg (by simp [hsc]), h4]

set_option maxHeartbeats 1000000 in
theorem panel_end_nonscrollable (inp : Input) (t : Engine)
    (hAct : t.panelActive = true) (hScr : t.panelScrollable = false) :
    (rui_panel_end inp t).scrollOffset = t.scrollOffsetBeforePanel ∧
    (rui_panel_end inp t).prevContentHeight = t.prevContentHeight ∧
    (rui_panel_end inp t).hasPrevContent = t.hasPrevContent ∧
    (rui_panel_end inp t).lastScrollableViewHeight = t.lastScrollableViewHeight := by
  simp only [rui_panel_end, hAct, hScr]
  cases hA : t.panelAlphaApplied <;> simp [hA]

set_option maxHeartbeats 1000000 in
theorem panel_end_scrollable (inp : Input) (t : Engine)
    (hAct : t.panelActive = true) (hScr : t.panelScrollable = true)
    (hView : t.lastScrollableViewHeight = t.currentPanel.h - t.panelHeaderHeight) :
    scrollInv (rui_panel_end inp t) := by
  unfold scrollInv
  by_cases hover : t.contentHeight > t.currentPanel.h - t.panelHeaderHeight
  · have hmm : (0:ℚ) ≤ t.contentHeight - (t.currentPanel.h - t.panelHeaderHeight) := by
      linarith
    have hm0 : ¬ (t.contentHeight - (t.currentPanel.h - t.panelHeaderHeight) < 0) := by
      linarith
    have hmaxeq : max 0 (t.contentHeight - t.lastScrollableViewHeight)
        = t.contentHeight - (t.currentPanel.h - t.panelHeaderHeight) := by
      rw [hView]; exact max_eq_right hmm
    simp only [rui_panel_end, hAct, hScr, hover, hm0]
    cases hA : t.panelAlphaApplied <;>
      exact ⟨(raymathClamp_mem _ _ _ hmm).1,
        le_trans (raymathClamp_mem _ _ _ hmm).2 (le_of_eq hmaxeq.symm)⟩
  · simp only [rui_panel_end, hAct, hScr, hover]
    cases hA : t.panelAlphaApplied <;>
      exact ⟨le_refl 0, le_max_left 0 _⟩

/-! ## Claim C7 -/

set_option maxHeartbeats 1000000 in
/-- Claim C7: opening a non-scrollable session (with any child widgets and
any input) and closing it restores the global scroll offset to its value just
before the Open — the offset is saved by rui_panel_begin_internal and
restored by rui_panel_end, so an interposed non-scrollable panel does not
disturb a scrollable panel's offset. -/
theorem c7_nonscrollable_restores_offset (fr : Session) (s : Engine)
    (h : fr.scrollable = false) :
    (runSession fr s).scrollOffset = s.scrollOffset := by
  obtain ⟨hbAct, hbScr, hbBefore, hbPrev, hbHasPrev, hbLastT, hbLastF⟩ :=
    begin_fixed_fields fr.input fr.bounds fr.hasTitle fr.scrollable fr.align fr.alphaArg s
  obtain ⟨c, ch, cw, sd, asl, hw⟩ := runWidgets_eq fr.input fr.widgets
    (rui_panel_begin_internal fr.input fr.bounds fr.hasTitle fr.scrollable
      fr.align fr.alphaArg s)
  set sw := runWidgets fr.input fr.widgets
    (rui_panel_begin_internal fr.input fr.bounds fr.hasTitle fr.scrollable
      fr.align fr.alphaArg s) with hswdef
  have hAct2 : sw.panelActive = true := by rw [hw]; exact hbAct
  have hScr2 : sw.panelScrollable = fr.scrollable := by rw [hw]; exact hbScr
  have hBefore2 : sw.scrollOffsetBeforePanel = s.scrollOffset := by rw [hw]; exact hbBefore
  show (rui_panel_end fr.input sw).scrollOffset = s.scrollOffset
  exact ((panel_end_nonscrollable fr.input sw hAct2 (hScr2.trans h)).1).trans hBefore2

/-- Claim C7 witness: the round trip evaluated for the concrete
non-scrollable session on a frame whose scrollable state recorded content
height 500. -/
theorem c7_nonscrollable_restores_offset_witness :
    sessionPlain.scrollable = false ∧
    (runSession sessionPlain engineScrolled).scrollOffset =
      engineScrolled.scrollOffset :=
  ⟨rfl, c7_nonscrollable_restores_offset sessionPlain engineScrolled rfl⟩

/-! ## Claim C1 -/

set_option maxHeartbeats 1000000 in
theorem runSession_scrollInv (fr : Session) (s : Engine) (h : scrollInv s) :
    scrollInv (runSession fr s) := by
  obtain ⟨hbAct, hbScr, hbBefore, hbPrev, hbHasPrev, hbLastT, hbLastF⟩ :=
    begin_fixed_fields fr.input fr.bounds fr.hasTitle fr.scrollable fr.align fr.alphaArg s
  obtain ⟨c, ch, cw, sd, asl, hw⟩ := runWidgets_eq fr.input fr.widgets
    (rui_panel_begin_internal fr.input fr.bounds fr.hasTitle fr.scrollable
      fr.align fr.alphaArg s)
  set sw := runWidgets fr.input fr.widgets
    (rui_panel_begin_internal fr.input fr.bounds fr.hasTitle fr.scrollable
      fr.align fr.alphaArg s) with hswdef
  have hAct2 : sw.panelActive = true := by rw [hw]; exact hbAct
  have hScr2 : sw.panelScrollable = fr.scrollable := by rw [hw]; exact hbScr
  have hBefore2 : sw.scrollOffsetBeforePanel = s.scrollOffset := by rw [hw]; exact hbBefore
  have hPrev2 : sw.prevContentHeight = s.prevContentHeight := by rw [hw]; exact hbPrev
  show scrollInv (rui_panel_end fr.input sw)
  cases hsc : fr.scrollable with
  | false =>
    have hLast2 : sw.lastScrollableViewHeight = s.lastScrollableViewHeight := by
      rw [hw]; exact hbLastF hsc
    obtain ⟨he1, he2, _, he4⟩ :=
      panel_end_nonscrollable fr.input sw hAct2 (hScr2.trans hsc)
    constructor
    · rw [he1, hBefore2]; exact h.1
    · rw [he1, hBefore2, he2, hPrev2, he4, hLast2]; exact h.2
  | true =>
    have hView2 : sw.lastScrollableViewHeight =
        sw.currentPanel.h - sw.panelHeaderHeight := by
      rw [hw]; exact hbLastT hsc
    exact panel_end_scrollable fr.input sw hAct2 (hScr2.trans hsc) hView2

/-- Claim C1: starting from the initial engine state, after any finite
sequence of panel sessions — wheel adjustments at Open, child widgets, thumb
drags and the final clamp at Close — the global scroll offset satisfies
0 ≤ offset ≤ max 0 (previousContentHeight - viewportHeight), where
previousContentHeight is the stored previous-frame content height and
viewportHeight is bounds height minus header height of the most recent
scrollable session; as the sequence is universally quantified, the bound
holds immediately after every rui_panel_end. -/
theorem c1_scroll_offset_bounded (frames : List Session) :
    0 ≤ (runFrames frames engineInit).scrollOffset ∧
    (runFrames frames engineInit).scrollOffset ≤
      max 0 ((runFrames frames engineInit).prevContentHeight -
             (runFrames frames engineInit).lastScrollableViewHeight) := by
  have hrun : ∀ (fs : List Session) (s : Engine), scrollInv s → scrollInv (runFrames fs s) := by
    intro fs
    induction fs with
    | nil => exact fun s hs => hs
    | cons fr rest ih =>
      exact fun s hs => ih (runSession fr s) (runSession_scrollInv fr s hs)
  exact hrun frames engineInit (by constructor <;> simp [engineInit])
